import Mathlib

/-!
# car-zone: models and the transactional stores

A shallow embedding of `models/car.go`, `models/engine.go`,
`store/car/car.go` and `store/engine/engine.go`.

* Go values become Lean structures; `error` is `Option Error` (`none` is `nil`);
  a slice is `Option (List α)` (`none` is the nil slice).
* `database/sql` is modelled by a `World`: the committed tables, the working
  copy of the open transaction, the log of the calls made on the handle, and a
  schedule saying what the environment does at each upcoming call (nothing, a
  failure of the call, or a concurrent transaction that commits just before it).
* A store method is a function from a `World` to its Go results and the
  `World` it leaves behind.
-/

namespace CarZone

/-! ## Basic types -/

/-- The 16 bytes of a `uuid.UUID`, read as one big-endian number. -/
abbrev UUID := Nat

/-- A `time.Time`, as an instant; `0` is the zero `Time`. -/
abbrev Time := Nat

/-- A Go `float64`, by its IEEE 754 bit pattern. -/
structure Float64 where
  bits : Nat
deriving DecidableEq, Repr, Inhabited

namespace Float64

/-- The sign bit. -/
def sign (f : Float64) : Nat := f.bits / 2 ^ 63 % 2

/-- The biased exponent (11 bits). -/
def exponent (f : Float64) : Nat := f.bits / 2 ^ 52 % 2 ^ 11

/-- The fraction (52 bits). -/
def fraction (f : Float64) : Nat := f.bits % 2 ^ 52

/-- Go `f < 0`: the sign is set, `f` is not a NaN and not a zero. -/
def ltZero (f : Float64) : Bool :=
  f.sign == 1 && !(f.exponent == 2047 && f.fraction != 0) &&
    !(f.exponent == 0 && f.fraction == 0)

end Float64

/-- A Go `error` value that is not nil. -/
inductive Error where
  /-- The sentinel `sql.ErrNoRows`. -/
  | ErrNoRows
  /-- The value of `errors.New(msg)`. -/
  | New (msg : String)
  /-- Any other error coming out of `database/sql` or the driver. -/
  | driver (msg : String)
deriving DecidableEq, Repr

/-! ## Go strings -/

/-- The UTF-8 encoding of one character, byte by byte. -/
def utf8Char (c : Char) : List Nat :=
  let v := c.toNat
  if v < 0x80 then [v]
  else if v < 0x800 then [0xC0 + v / 64, 0x80 + v % 64]
  else if v < 0x10000 then [0xE0 + v / 4096, 0x80 + v / 64 % 64, 0x80 + v % 64]
  else [0xF0 + v / 262144, 0x80 + v / 4096 % 64, 0x80 + v / 64 % 64, 0x80 + v % 64]

/-- The bytes of a run of characters. -/
def utf8Chars : List Char → List Nat
  | [] => []
  | c :: cs => utf8Char c ++ utf8Chars cs

/-- The bytes of a Go string: `len(s)` is their number and `s[i]` the byte at `i`. -/
def goBytes (s : String) : List Nat := utf8Chars s.toList

/-! ## `github.com/google/uuid` -/

namespace uuid

/-- The value `uuid.Nil`. -/
def Nil : UUID := 0

/-- The value of one hexadecimal digit byte (the table `xvalues`), `none` for any
    other byte. -/
def xvalue (b : Nat) : Option Nat :=
  if 48 ≤ b ∧ b ≤ 57 then some (b - 48)
  else if 97 ≤ b ∧ b ≤ 102 then some (b - 97 + 10)
  else if 65 ≤ b ∧ b ≤ 70 then some (b - 65 + 10)
  else none

/-- Reads the hexadecimal digits of `bs` onto the accumulator, skipping nothing. -/
def hexRun : List Nat → Nat → Option Nat
  | [], acc => some acc
  | b :: bs, acc =>
    match xvalue b with
    | none => none
    | some v => hexRun bs (acc * 16 + v)

/-- The 36-byte form `xxxxxxxx-xxxx-xxxx-xxxx-xxxxxxxxxxxx`: the bytes at 8, 13, 18
    and 23 are dashes, the other 32 of the first 36 are hex digits. -/
def parseHyphenated (bs : List Nat) : Option UUID :=
  if bs.getD 8 0 = 45 ∧ bs.getD 13 0 = 45 ∧ bs.getD 18 0 = 45 ∧ bs.getD 23 0 = 45 then
    hexRun (bs.take 8 ++ (bs.drop 9).take 4 ++ (bs.drop 14).take 4 ++ (bs.drop 19).take 4
      ++ (bs.drop 24).take 12) 0
  else none

/-- An ASCII upper-case letter made lower case, any other byte unchanged. -/
def lowerByte (b : Nat) : Nat := if 65 ≤ b ∧ b ≤ 90 then b + 32 else b

/-- The function `uuid.Parse`, which switches on `len(s)`, the number of bytes:
    36, the hyphenated form; 45, the same after `urn:uuid:` in any case (no
    character outside ASCII folds to a letter of that word, so `EqualFold` on the
    first nine bytes is equality of their lower-case forms); 38, the same after
    the first byte; 32, bare hex digits; any other length is an error. `none`
    stands for a non-nil error. -/
def Parse (s : String) : Option UUID :=
  let bs := goBytes s
  if bs.length = 36 then parseHyphenated bs
  else if bs.length = 36 + 9 then
    if (bs.take 9).map lowerByte = goBytes "urn:uuid:" then parseHyphenated (bs.drop 9)
    else none
  else if bs.length = 36 + 2 then parseHyphenated (bs.drop 1)
  else if bs.length = 32 then hexRun bs 0
  else none

end uuid

/-! ## `strconv.Atoi` -/

namespace strconv

/-- The digit loop of `ParseUint` in base 10: every character must be `0`..`9`. -/
def digitsLoop : List Char → Nat → Option Nat
  | [], n => some n
  | ch :: rest, n =>
    if '0' ≤ ch ∧ ch ≤ '9' then digitsLoop rest (n * 10 + (ch.toNat - '0'.toNat)) else none

/-- The function `strconv.Atoi` on a 64-bit platform: an optional sign, at least
    one decimal digit, and a value that fits `int`; `none` stands for its error
    (`ErrSyntax` or `ErrRange`). -/
def Atoi (s : String) : Option Int :=
  match s.toList with
  | [] => none
  | c :: cs =>
    let neg := c = '-'
    let body := if c = '-' ∨ c = '+' then cs else c :: cs
    match body with
    | [] => none
    | d :: ds =>
      match digitsLoop (d :: ds) 0 with
      | none => none
      | some n =>
        if neg then (if n ≤ 2 ^ 63 then some (-(n : Int)) else none)
        else (if n < 2 ^ 63 then some (n : Int) else none)

end strconv

/-! ## `models` -/

/-- The struct `models.Engine`. -/
structure Engine where
  EngineID : UUID
  Displacement : Int
  NoOfCylinders : Int
  CarRange : Int
deriving DecidableEq, Repr

/-- The zero value of `models.Engine`. -/
instance : Inhabited Engine := ⟨⟨uuid.Nil, 0, 0, 0⟩⟩

/-- The struct `models.EngineRequest`. -/
structure EngineRequest where
  Displacement : Int
  NoOfCylinders : Int
  CarRange : Int
deriving DecidableEq, Repr

/-- The struct `models.Car`. -/
structure Car where
  ID : UUID
  Name : String
  Brand : String
  Year : String
  Engine : CarZone.Engine
  Price : Float64
  FuelType : String
  CreatedAt : Time
  UpdatedAt : Time
deriving DecidableEq, Repr

/-- The zero value of `models.Car`. -/
instance : Inhabited Car := ⟨⟨uuid.Nil, "", "", "", default, ⟨0⟩, "", 0, 0⟩⟩

/-- The struct `models.CarRequest`. -/
structure CarRequest where
  ID : UUID
  Name : String
  Brand : String
  Year : String
  Engine : CarZone.Engine
  Price : Float64
  FuelType : String
  CreatedAt : Time
  UpdatedAt : Time
deriving DecidableEq, Repr

/-- The function `validateName`. -/
def validateName (name : String) : Option Error :=
  if name = "" then some (.New "name cannot be empty") else none

/-- The function `validateYear`; `currentYear` is the value of `time.Now().Year()`. -/
def validateYear (currentYear : Int) (year : String) : Option Error :=
  if year = "" then some (.New "year cannot be empty")
  else
    match strconv.Atoi year with
    | none => some (.New "year must be a valid number")
    | some yearInt =>
      if yearInt < 1886 ∨ yearInt > currentYear then
        some (.New "year must be between 1886 and the current year")
      else none

/-- The function `validateBrand`. -/
def validateBrand (brand : String) : Option Error :=
  if brand = "" then some (.New "brand cannot be empty") else none

/-- The loop of `validateFuelType` over the accepted values. -/
def fuelTypeLoop (fuelType : String) : List String → Option Error
  | [] => some (.New "invalid fuel type, must be one of Petrol, Diesel, Electric, Hybrid")
  | v :: rest => if fuelType = v then none else fuelTypeLoop fuelType rest

/-- The function `validateFuelType`. -/
def validateFuelType (fuelType : String) : Option Error :=
  fuelTypeLoop fuelType ["Petrol", "Diesel", "Electric", "Hybrid"]

/-- The function `validateEngine`. -/
def validateEngine (engine : Engine) : Option Error :=
  if engine.EngineID = uuid.Nil then some (.New "engine_id cannot be empty")
  else if engine.Displacement ≤ 0 then some (.New "displacement must be a positive number")
  else if engine.NoOfCylinders ≤ 0 then some (.New "no_of_cylinders must be a positive number")
  else if engine.CarRange < 0 then some (.New "car_range cannot be negative")
  else none

/-- The function `validatePrice`. -/
def validatePrice (price : Float64) : Option Error :=
  if price.ltZero then some (.New "price cannot be negative") else none

/-- The function `validateCarRequest`; `currentYear` is the value of `time.Now().Year()`. -/
def validateCarRequest (currentYear : Int) (car : CarRequest) : Option Error :=
  match validateName car.Name with
  | some err => some err
  | none =>
  match validateYear currentYear car.Year with
  | some err => some err
  | none =>
  match validateBrand car.Brand with
  | some err => some err
  | none =>
  match validateFuelType car.FuelType with
  | some err => some err
  | none =>
  match validateEngine car.Engine with
  | some err => some err
  | none =>
  match validatePrice car.Price with
  | some err => some err
  | none => none

/-- The function `validateDisplacement`. -/
def validateDisplacement (displacement : Int) : Option Error :=
  if displacement ≤ 0 then some (.New "displacement must be a positive number") else none

/-- The function `validateNoOfCylinders`. -/
def validateNoOfCylinders (noOfCylinders : Int) : Option Error :=
  if noOfCylinders ≤ 0 then some (.New "no_of_cylinders must be a positive number") else none

/-- The function `validateCarRange`. -/
def validateCarRange (carRange : Int) : Option Error :=
  if carRange < 0 then some (.New "car_range cannot be negative") else none

/-- The function `ValidateEngineRequest`. -/
def ValidateEngineRequest (engine : EngineRequest) : Option Error :=
  match validateDisplacement engine.Displacement with
  | some err => some err
  | none =>
  match validateNoOfCylinders engine.NoOfCylinders with
  | some err => some err
  | none =>
  match validateCarRange engine.CarRange with
  | some err => some err
  | none => none

/-! ### The words of the validation contract -/

/-- Splits a literal into whether it starts with a minus sign and what follows
    its optional sign. -/
def signBody : List Char → Bool × List Char
  | [] => (false, [])
  | c :: rest =>
    if c = '-' then (true, rest) else if c = '+' then (false, rest) else (false, c :: rest)

/-- A base-10 integer literal: an optional sign, then one or more decimal digits. -/
def isBase10Literal (s : String) : Bool :=
  !(signBody s.toList).2.isEmpty && (signBody s.toList).2.all Char.isDigit

/-- The number a run of decimal digits denotes. -/
def digitsValue (ds : List Char) : Nat :=
  ds.foldl (fun n c => n * 10 + (c.toNat - 48)) 0

/-- The integer a base-10 integer literal denotes. -/
def literalValue (s : String) : Int :=
  if (signBody s.toList).1 then -(digitsValue (signBody s.toList).2 : Int)
  else (digitsValue (signBody s.toList).2 : Int)

/-- The car requests the validation contract refuses when the current year is `Y`:
    an empty name or brand; a year that is empty, is no base-10 integer literal, or
    denotes a value below 1886 or above `Y`; a fuel type outside the four accepted
    ones; a nil engine id; a displacement or cylinder count that is not positive; a
    negative range; a negative price. -/
def CarRequestRefused (Y : Int) (r : CarRequest) : Prop :=
  r.Name = "" ∨ r.Brand = "" ∨
  (r.Year = "" ∨ isBase10Literal r.Year = false ∨ literalValue r.Year < 1886 ∨
    literalValue r.Year > Y) ∨
  ¬ (r.FuelType = "Petrol" ∨ r.FuelType = "Diesel" ∨ r.FuelType = "Electric" ∨
      r.FuelType = "Hybrid") ∨
  r.Engine.EngineID = uuid.Nil ∨ r.Engine.Displacement ≤ 0 ∨ r.Engine.NoOfCylinders ≤ 0 ∨
  r.Engine.CarRange < 0 ∨ r.Price.ltZero = true

/-- The engine requests the validation contract refuses. -/
def EngineRequestRefused (e : EngineRequest) : Prop :=
  e.Displacement ≤ 0 ∨ e.NoOfCylinders ≤ 0 ∨ e.CarRange < 0

/-! ## The database behind `*sql.DB` -/

/-- A row of table `engine(id, displacement, no_of_cylinders, car_range)`. -/
structure EngineRow where
  id : UUID
  displacement : Int
  no_of_cylinders : Int
  car_range : Int
deriving DecidableEq, Repr

/-- A row of table `car(id, name, brand, year, engine_id, price, fuel_type,
    created_at, updated_at)`. -/
structure CarRow where
  id : UUID
  name : String
  brand : String
  year : String
  engine_id : UUID
  price : Float64
  fuel_type : String
  created_at : Time
  updated_at : Time
deriving DecidableEq, Repr

/-- Modelled from the spec: the persisted schema, whose declaration is not among
    the sources. `id` is the primary key of each table, so an INSERT of a present id
    is refused. Whether the server also enforces the reference from
    `car.engine_id` to `engine.id` is left open by the sources; the tables here do
    not, and no theorem below runs a statement that such a constraint would refuse. -/
structure Tables where
  car : List CarRow
  engine : List EngineRow
deriving DecidableEq, Repr

/-- The SQL statements of the two stores, one name per statement text. -/
inductive Stmt where
  /-- The statement `SELECT c.…, e.… FROM car c LEFT JOIN engine e ON c.engine_id = e.id WHERE id = $1`. -/
  | carJoinByID
  /-- The statement `SELECT c.…, e.… FROM car c LEFT JOIN engine e ON c.engine_id = e.id WHERE c.brand = $1`. -/
  | carJoinByBrand
  /-- The statement `SELECT id, …, updated_at FROM car WHERE brand = $1`. -/
  | carByBrand
  /-- The statement `SELECT id FROM engine WHERE id=$1`. -/
  | engineIDByID
  /-- The statement `INSERT INTO car (…) VALUES (…) RETURNING …`. -/
  | insertCar
  /-- The statement `UPDATE car SET … WHERE id=$1 RETURNING …`. -/
  | updateCar
  /-- The statement `SELECT id, …, updated_at FROM car WHERE id=$1`. -/
  | carByID
  /-- The statement `DELETE FROM car WHERE id=$1`. -/
  | deleteCar
  /-- The statement `SELECT id, displacement, no_of_cylinders, car_range FROM engine WHERE id = $1`. -/
  | engineByID
  /-- The statement `INSERT INTO engine (…) VALUES (…) RETURNING …`. -/
  | insertEngine
  /-- The statement `UPDATE engine SET … WHERE id = $1 RETURNING …`. -/
  | updateEngine
  /-- The statement `DELETE FROM engine WHERE id = $1`. -/
  | deleteEngine
deriving DecidableEq, Repr

/-- A call made on the database handle, on a transaction or on a result. -/
inductive Call where
  | BeginTx
  | QueryRowContext (q : Stmt)
  | QueryContext (q : Stmt)
  | ExecContext (q : Stmt)
  | RowsErr
  | RowsAffected
  | Commit
  | Rollback
deriving DecidableEq, Repr

/-- What the environment does at one call: nothing, make the call fail, or let
    a concurrent transaction delete a row and commit just before the call is
    served (the stores run at the default isolation level, so the next
    statement of an open transaction sees that). -/
inductive Glitch where
  | ok
  | fail (msg : String)
  | deleteCar (id : UUID)
  | deleteEngine (id : UUID)
deriving DecidableEq, Repr

/-- The table `car` without the rows of the given id. -/
def Tables.dropCar (t : Tables) (id : UUID) : Tables :=
  { t with car := t.car.filter (fun r => r.id != id) }

/-- The table `engine` without the rows of the given id. -/
def Tables.dropEngine (t : Tables) (id : UUID) : Tables :=
  { t with engine := t.engine.filter (fun r => r.id != id) }

/-- Everything a store method runs against. -/
structure World where
  /-- The committed tables. -/
  db : Tables
  /-- The working copy of the open transaction, if one is open. -/
  tx : Option Tables
  /-- The calls made so far, oldest first. -/
  log : List Call
  /-- What the environment does at the upcoming calls; past its end, nothing. -/
  schedule : List Glitch
  /-- The upcoming values of `uuid.New()`. -/
  uuids : List UUID
  /-- The reading of `time.Now()`. -/
  clock : Time
  /-- How the server reads a text parameter compared with a `uuid` column;
      `none`: the statement is rejected. -/
  uuidIn : String → Option UUID

namespace World

/-- The tables a statement of the open transaction sees. -/
def view (w : World) : Tables := w.tx.getD w.db

/-- A concurrent transaction commits. -/
def interfere (w : World) : Glitch → World
  | .deleteCar id => { w with db := w.db.dropCar id, tx := w.tx.map (fun t => t.dropCar id) }
  | .deleteEngine id =>
    { w with db := w.db.dropEngine id, tx := w.tx.map (fun t => t.dropEngine id) }
  | _ => w

/-- One call: it is logged, the head of the schedule is consumed, and the call
    either fails or goes on (after the concurrent commit, if one was due). -/
def call (w : World) (c : Call) : Option Error × World :=
  let w1 := { w with log := w.log ++ [c], schedule := w.schedule.tail }
  match w.schedule.head? with
  | some (.fail msg) => (some (.driver msg), w1)
  | some g => (none, w1.interfere g)
  | none => (none, w1)

/-- The call `uuid.New()`. -/
def newUUID (w : World) : UUID × World :=
  (w.uuids.headD uuid.Nil, { w with uuids := w.uuids.tail })

/-- The call `time.Now()`. -/
def now (w : World) : Time × World :=
  (w.clock, { w with clock := w.clock + 1 })

/-- The call `db.BeginTx(ctx, nil)`. -/
def BeginTx (w : World) : Option Error × World :=
  match w.call .BeginTx with
  | (some err, w1) => (some err, w1)
  | (none, w1) => (none, { w1 with tx := some w1.db })

/-- The call `tx.Commit()`: the working copy becomes the committed tables, unless the
    commit fails, which discards it. -/
def Commit (w : World) : Option Error × World :=
  match w.call .Commit with
  | (some err, w1) => (some err, { w1 with tx := none })
  | (none, w1) => (none, { w1 with db := w1.view, tx := none })

/-- The call `tx.Rollback()`, its result dropped as the stores drop it. -/
def Rollback (w : World) : World :=
  { (w.call .Rollback).2 with tx := none }

/-- The deferred function of every mutating method,
    `if err != nil { tx.Rollback(); return }; err = tx.Commit()`, run on the
    value the local variable `err` holds when the method returns. Its
    assignment to `err` comes after the `return` statement has set the
    method's unnamed results, so it changes nothing the caller sees. -/
def finish (w : World) (err : Option Error) : World :=
  match err with
  | some _ => w.Rollback
  | none => w.Commit.2

end World

/-! ### What the statements do to the tables -/

/-- A row of `car c LEFT JOIN engine e ON c.engine_id = e.id`: the car columns
    and the engine columns, NULL when no engine row matches. -/
structure JoinRow where
  c : CarRow
  e : Option EngineRow
deriving DecidableEq, Repr

/-- The rows of `car c LEFT JOIN engine e ON c.engine_id = e.id` for the given car rows. -/
def leftJoin (engines : List EngineRow) : List CarRow → List JoinRow
  | [] => []
  | c :: cs =>
    (match engines.filter (fun e => e.id = c.engine_id) with
      | [] => [⟨c, none⟩]
      | es => es.map (fun e => ⟨c, some e⟩)) ++ leftJoin engines cs

/-- The answer of the server to `Stmt.carJoinByID`,
    `SELECT c.…, e.… FROM car c LEFT JOIN engine e ON c.engine_id = e.id WHERE id = $1`.
    The WHERE clause names a bare `id`, and both joined tables, `car c` and
    `engine e`, have a column `id`: the server refuses the statement as ambiguous,
    whatever the parameter is and whatever the tables hold. -/
def Tables.carJoinByID (_ : Tables) (_ : String) : Except Error (List JoinRow) :=
  .error (.driver "column reference id is ambiguous")

/-- The statement `INSERT INTO car … RETURNING …`. -/
def Tables.insertCar (t : Tables) (r : CarRow) : Except Error Tables :=
  if t.car.any (fun c => c.id = r.id) then
    .error (.driver "duplicate key value violates unique constraint")
  else .ok { t with car := t.car ++ [r] }

/-- The statement `INSERT INTO engine … RETURNING …`. -/
def Tables.insertEngine (t : Tables) (r : EngineRow) : Except Error Tables :=
  if t.engine.any (fun e => e.id = r.id) then
    .error (.driver "duplicate key value violates unique constraint")
  else .ok { t with engine := t.engine ++ [r] }

/-- The row `UPDATE car SET name=$2, brand=$3, year=$4, engine_id=$5, price=$6,
    fuel_type=$7, updated_at=$8` makes of a row. -/
def CarRow.set (r : CarRow) (car : CarRequest) (updatedAt : Time) : CarRow :=
  { r with name := car.Name, brand := car.Brand, year := car.Year,
           engine_id := car.Engine.EngineID, price := car.Price, fuel_type := car.FuelType,
           updated_at := updatedAt }

/-- The statement `UPDATE car SET … WHERE id=$1`. -/
def Tables.updateCar (t : Tables) (id : UUID) (car : CarRequest) (updatedAt : Time) : Tables :=
  { t with car := t.car.map (fun r => if r.id = id then r.set car updatedAt else r) }

/-- The row `UPDATE engine SET displacement = $2, no_of_cylinders = $3,
    car_range = $4` makes of a row. -/
def EngineRow.set (r : EngineRow) (engine : EngineRequest) : EngineRow :=
  { r with displacement := engine.Displacement, no_of_cylinders := engine.NoOfCylinders,
           car_range := engine.CarRange }

/-- The statement `UPDATE engine SET … WHERE id = $1`. -/
def Tables.updateEngine (t : Tables) (id : UUID) (engine : EngineRequest) : Tables :=
  { t with engine := t.engine.map (fun r => if r.id = id then r.set engine else r) }

/-! ### Scanning rows into the models -/

/-- The nine car columns scanned into
    `&c.ID, &c.Name, &c.Brand, &c.Year, &c.Engine.EngineID, &c.Price, &c.FuelType,
    &c.CreatedAt, &c.UpdatedAt`. -/
def scanCar (car : Car) (r : CarRow) : Car :=
  { car with ID := r.id, Name := r.name, Brand := r.brand, Year := r.year,
             Engine := { car.Engine with EngineID := r.engine_id },
             Price := r.price, FuelType := r.fuel_type,
             CreatedAt := r.created_at, UpdatedAt := r.updated_at }

/-- The twelve columns of a joined row scanned into the nine destinations of
    `scanCar` and then `&c.Engine.Displacement, &c.Engine.NoOfCylinders,
    &c.Engine.CarRange`. `Scan` assigns in order and stops at the first column
    it cannot convert: a NULL has no `int64`. -/
def scanJoin (car : Car) (r : JoinRow) : Car × Option Error :=
  let car1 := scanCar car r.c
  match r.e with
  | none => (car1, some (.driver "converting NULL to int64 is unsupported"))
  | some e =>
    ({ car1 with Engine := { car1.Engine with Displacement := e.displacement,
                                               NoOfCylinders := e.no_of_cylinders,
                                               CarRange := e.car_range } }, none)

/-- The four engine columns scanned into
    `&e.EngineID, &e.Displacement, &e.NoOfCylinders, &e.CarRange`. -/
def scanEngine (r : EngineRow) : Engine :=
  { EngineID := r.id, Displacement := r.displacement, NoOfCylinders := r.no_of_cylinders,
    CarRange := r.car_range }

/-- Go `append(s, x)`; the nil slice is `none`. -/
def append {α : Type} (s : Option (List α)) (x : α) : Option (List α) :=
  some (s.getD [] ++ [x])

/-! ### The single-row queries, with their `Scan` -/

namespace World

/-- The call `s.db.QueryRowContext(ctx, carJoinByID, carID).Scan(&car.ID, …, &car.Engine.CarRange)`:
    the error of the call or of the statement, `sql.ErrNoRows` when there is no
    row, or the scan of the first row. -/
def scanCarJoinByID (w : World) (carID : String) (car : Car) : (Car × Option Error) × World :=
  match w.call (.QueryRowContext .carJoinByID) with
  | (some err, w1) => ((car, some err), w1)
  | (none, w1) =>
    match w1.db.carJoinByID carID with
    | .error err => ((car, some err), w1)
    | .ok [] => ((car, some .ErrNoRows), w1)
    | .ok (r :: _) => (scanJoin car r, w1)

/-- The call `s.db.QueryRowContext(ctx, engineIDByID, id).Scan(&engineID)`. -/
def scanEngineID (w : World) (id : UUID) : Option Error × World :=
  match w.call (.QueryRowContext .engineIDByID) with
  | (some err, w1) => (some err, w1)
  | (none, w1) =>
    match w1.db.engine.filter (fun e => e.id = id) with
    | [] => (some .ErrNoRows, w1)
    | _ :: _ => (none, w1)

/-- The call `tx.QueryRowContext(ctx, insertCar, newCar.ID, …).Scan(&createdCar.ID, …)`. -/
def scanInsertCar (w : World) (row : CarRow) (car : Car) : (Car × Option Error) × World :=
  match w.call (.QueryRowContext .insertCar) with
  | (some err, w1) => ((car, some err), w1)
  | (none, w1) =>
    match w1.view.insertCar row with
    | .error err => ((car, some err), w1)
    | .ok t => ((scanCar car row, none), { w1 with tx := some t })

/-- The call `tx.QueryRowContext(ctx, updateCar, carID, …).Scan(&updatedCar.ID, …)`. -/
def scanUpdateCar (w : World) (carID : UUID) (req : CarRequest) (updatedAt : Time) (car : Car) :
    (Car × Option Error) × World :=
  match w.call (.QueryRowContext .updateCar) with
  | (some err, w1) => ((car, some err), w1)
  | (none, w1) =>
    let t := w1.view.updateCar carID req updatedAt
    match t.car.filter (fun r => r.id = carID) with
    | [] => ((car, some .ErrNoRows), { w1 with tx := some t })
    | row :: _ => ((scanCar car row, none), { w1 with tx := some t })

/-- The call `tx.QueryRowContext(ctx, carByID, carID).Scan(&deletedCar.ID, …)`. -/
def scanCarByID (w : World) (carID : String) (car : Car) : (Car × Option Error) × World :=
  match w.call (.QueryRowContext .carByID) with
  | (some err, w1) => ((car, some err), w1)
  | (none, w1) =>
    match w1.uuidIn carID with
    | none => ((car, some (.driver "invalid input syntax for type uuid")), w1)
    | some u =>
      match w1.view.car.filter (fun r => r.id = u) with
      | [] => ((car, some .ErrNoRows), w1)
      | row :: _ => ((scanCar car row, none), w1)

/-- The call `tx.ExecContext(ctx, deleteCar, carID)`: the error, or the number of rows deleted. -/
def execDeleteCar (w : World) (carID : String) : Except Error Nat × World :=
  match w.call (.ExecContext .deleteCar) with
  | (some err, w1) => (.error err, w1)
  | (none, w1) =>
    match w1.uuidIn carID with
    | none => (.error (.driver "invalid input syntax for type uuid"), w1)
    | some u =>
      (.ok (w1.view.car.filter (fun r => r.id = u)).length,
        { w1 with tx := some (w1.view.dropCar u) })

/-- The call `s.db.QueryRowContext(ctx, engineByID, engineID).Scan(&engine.EngineID, …)` on the
    handle (`inTx = false`) or on the open transaction. -/
def scanEngineByID (w : World) (inTx : Bool) (engineID : String) (engine : Engine) :
    (Engine × Option Error) × World :=
  match w.call (.QueryRowContext .engineByID) with
  | (some err, w1) => ((engine, some err), w1)
  | (none, w1) =>
    match w1.uuidIn engineID with
    | none => ((engine, some (.driver "invalid input syntax for type uuid")), w1)
    | some u =>
      match (if inTx then w1.view else w1.db).engine.filter (fun r => r.id = u) with
      | [] => ((engine, some .ErrNoRows), w1)
      | row :: _ => ((scanEngine row, none), w1)

/-- The call `tx.QueryRowContext(ctx, insertEngine, …).Scan(&CreatedEngine.EngineID, …)`. -/
def scanInsertEngine (w : World) (row : EngineRow) (engine : Engine) :
    (Engine × Option Error) × World :=
  match w.call (.QueryRowContext .insertEngine) with
  | (some err, w1) => ((engine, some err), w1)
  | (none, w1) =>
    match w1.view.insertEngine row with
    | .error err => ((engine, some err), w1)
    | .ok t => ((scanEngine row, none), { w1 with tx := some t })

/-- The call `tx.QueryRowContext(ctx, updateEngine, engineID, …)` and `row.Scan(…)`. -/
def scanUpdateEngine (w : World) (engineID : UUID) (req : EngineRequest) (engine : Engine) :
    (Engine × Option Error) × World :=
  match w.call (.QueryRowContext .updateEngine) with
  | (some err, w1) => ((engine, some err), w1)
  | (none, w1) =>
    let t := w1.view.updateEngine engineID req
    match t.engine.filter (fun r => r.id = engineID) with
    | [] => ((engine, some .ErrNoRows), { w1 with tx := some t })
    | row :: _ => ((scanEngine row, none), { w1 with tx := some t })

/-- The call `tx.ExecContext(ctx, deleteEngine, engineID)`: the error, or the number of rows deleted. -/
def execDeleteEngine (w : World) (engineID : String) : Except Error Nat × World :=
  match w.call (.ExecContext .deleteEngine) with
  | (some err, w1) => (.error err, w1)
  | (none, w1) =>
    match w1.uuidIn engineID with
    | none => (.error (.driver "invalid input syntax for type uuid"), w1)
    | some u =>
      (.ok (w1.view.engine.filter (fun r => r.id = u)).length,
        { w1 with tx := some (w1.view.dropEngine u) })

end World

/-! ## `store/car` -/

/-- The method `Store.GetCarByID`. -/
def GetCarByID (w : World) (carID : String) : (Car × Option Error) × World :=
  let car : Car := default
  match w.scanCarJoinByID carID car with
  | ((car, some err), w1) =>
    if err = .ErrNoRows then ((car, none), w1) else ((car, some err), w1)
  | ((car, none), w1) => ((car, none), w1)

/-- The loop `for rows.Next() { … }` of `Store.GetCarByBrand`; the rows of the
    query without the join carry no engine columns. -/
def brandLoop (isEngine : Bool) :
    List JoinRow → Option (List Car) → Except Error (Option (List Car))
  | [], car => .ok car
  | r :: rows, car =>
    let c : Car := default
    if isEngine then
      let engine : Engine := default
      match scanJoin c r with
      | (_, some err) => .error err
      | (c, none) =>
        let c := { c with Engine := engine }
        brandLoop isEngine rows (append car c)
    else
      let c := scanCar c r.c
      brandLoop isEngine rows (append car c)

/-- The method `Store.GetCarByBrand`. -/
def GetCarByBrand (w : World) (brand : String) (isEngine : Bool) :
    (Option (List Car) × Option Error) × World :=
  let car : Option (List Car) := none
  let query := if isEngine then Stmt.carJoinByBrand else Stmt.carByBrand
  match w.call (.QueryContext query) with
  | (some err, w1) => ((none, some err), w1)
  | (none, w1) =>
    let matching := w1.db.car.filter (fun c => c.brand = brand)
    let rows :=
      if isEngine then leftJoin w1.db.engine matching
      else matching.map (fun c => ⟨c, none⟩)
    match brandLoop isEngine rows car with
    | .error err => ((none, some err), w1)
    | .ok car =>
      match w1.call .RowsErr with
      | (some err, w2) => ((none, some err), w2)
      | (none, w2) => ((car, none), w2)

/-- The method `Store.CreateCar`. -/
def CreateCar (w : World) (car : CarRequest) : (Car × Option Error) × World :=
  let createdCar : Car := default
  match w.scanEngineID car.Engine.EngineID with
  | (some err, w1) =>
    if err = .ErrNoRows then ((createdCar, some (.New "engine not found")), w1)
    else ((createdCar, some err), w1)
  | (none, w1) =>
    let (carID, w2) := w1.newUUID
    let (createdAt, w3) := w2.now
    let (updatedAt, w4) := w3.now
    let newCar : Car :=
      { ID := carID, Name := car.Name, Brand := car.Brand, Year := car.Year,
        Engine := car.Engine, Price := car.Price, FuelType := car.FuelType,
        CreatedAt := createdAt, UpdatedAt := updatedAt }
    match w4.BeginTx with
    | (some err, w5) => ((createdCar, some err), w5)
    | (none, w5) =>
      let row : CarRow :=
        { id := newCar.ID, name := newCar.Name, brand := newCar.Brand, year := newCar.Year,
          engine_id := newCar.Engine.EngineID, price := newCar.Price,
          fuel_type := newCar.FuelType, created_at := newCar.CreatedAt,
          updated_at := newCar.UpdatedAt }
      match w5.scanInsertCar row createdCar with
      | ((createdCar, some err), w6) => ((createdCar, some err), w6.finish (some err))
      | ((createdCar, none), w6) => ((createdCar, none), w6.finish none)

/-- The method `Store.UpdateCar`. -/
def UpdateCar (w : World) (id : String) (car : CarRequest) : (Car × Option Error) × World :=
  match uuid.Parse id with
  | none => ((default, some (.New "invalid Car ID format")), w)
  | some carID =>
    let updatedCar : Car := default
    match w.BeginTx with
    | (some err, w1) => ((updatedCar, some err), w1)
    | (none, w1) =>
      let (updatedAt, w2) := w1.now
      match w2.scanUpdateCar carID car updatedAt updatedCar with
      | ((updatedCar, some err), w3) => ((updatedCar, some err), w3.finish (some err))
      | ((updatedCar, none), w3) => ((updatedCar, none), w3.finish none)

/-- The method `Store.DeleteCar`. -/
def DeleteCar (w : World) (carID : String) : (Car × Option Error) × World :=
  let deletedCar : Car := default
  match w.BeginTx with
  | (some err, w1) => ((deletedCar, some err), w1)
  | (none, w1) =>
    match w1.scanCarByID carID deletedCar with
    | ((deletedCar, some err), w2) =>
      if err = .ErrNoRows then
        ((deletedCar, some (.New "car not found")), w2.finish (some err))
      else ((deletedCar, some err), w2.finish (some err))
    | ((deletedCar, none), w2) =>
      match w2.execDeleteCar carID with
      | (.error err, w3) => ((deletedCar, some err), w3.finish (some err))
      | (.ok rowsAffected, w3) =>
        match w3.call .RowsAffected with
        | (some err, w4) => ((deletedCar, some err), w4.finish (some err))
        | (none, w4) =>
          if rowsAffected = 0 then
            ((deletedCar, some (.New "car not found")), w4.finish none)
          else ((deletedCar, none), w4.finish none)

/-! ## `store/engine` -/

/-- The method `EngineStore.GetEngineByID`. -/
def GetEngineByID (w : World) (engineID : String) : (Engine × Option Error) × World :=
  let engine : Engine := default
  match w.scanEngineByID false engineID engine with
  | ((engine, some err), w1) =>
    if err = .ErrNoRows then ((engine, none), w1) else ((engine, some err), w1)
  | ((engine, none), w1) => ((engine, none), w1)

/-- The method `EngineStore.CreateEngine`. -/
def CreateEngine (w : World) (engineRequest : EngineRequest) :
    (Engine × Option Error) × World :=
  let CreatedEngine : Engine := default
  let (engineID, w1) := w.newUUID
  let newEngine : Engine :=
    { EngineID := engineID, Displacement := engineRequest.Displacement,
      NoOfCylinders := engineRequest.NoOfCylinders, CarRange := engineRequest.CarRange }
  match w1.BeginTx with
  | (some err, w2) => ((CreatedEngine, some err), w2)
  | (none, w2) =>
    let row : EngineRow :=
      { id := newEngine.EngineID, displacement := newEngine.Displacement,
        no_of_cylinders := newEngine.NoOfCylinders, car_range := newEngine.CarRange }
    match w2.scanInsertEngine row CreatedEngine with
    | ((CreatedEngine, some err), w3) => ((CreatedEngine, some err), w3.finish (some err))
    | ((CreatedEngine, none), w3) => ((CreatedEngine, none), w3.finish none)

/-- The method `EngineStore.UpdateEngine`. -/
def UpdateEngine (w : World) (id : String) (engine : EngineRequest) :
    (Engine × Option Error) × World :=
  match uuid.Parse id with
  | none => ((default, some (.New "invalid engine ID format")), w)
  | some engineID =>
    let updatedEngine : Engine := default
    match w.BeginTx with
    | (some err, w1) => ((updatedEngine, some err), w1)
    | (none, w1) =>
      match w1.scanUpdateEngine engineID engine updatedEngine with
      | ((updatedEngine, some err), w2) => ((updatedEngine, some err), w2.finish (some err))
      | ((updatedEngine, none), w2) => ((updatedEngine, none), w2.finish none)

/-- The method `EngineStore.DeleteEngine`. -/
def DeleteEngine (w : World) (engineID : String) : (Engine × Option Error) × World :=
  let deletedCar : Engine := default
  match w.BeginTx with
  | (some err, w1) => ((deletedCar, some err), w1)
  | (none, w1) =>
    match w1.scanEngineByID true engineID deletedCar with
    | ((deletedCar, some err), w2) =>
      if err = .ErrNoRows then
        ((deletedCar, some (.New "engine not found")), w2.finish (some err))
      else ((deletedCar, some err), w2.finish (some err))
    | ((deletedCar, none), w2) =>
      match w2.execDeleteEngine engineID with
      | (.error err, w3) => ((deletedCar, some err), w3.finish (some err))
      | (.ok rowsAffected, w3) =>
        match w3.call .RowsAffected with
        | (some err, w4) => ((deletedCar, some err), w4.finish (some err))
        | (none, w4) =>
          if rowsAffected = 0 then
            ((deletedCar, some (.New "no engine deleted")), w4.finish none)
          else ((deletedCar, none), w4.finish none)

/-! ## Runs without interference -/

/-- Every entry of a schedule lets its call through untouched. -/
def allOk (s : List Glitch) : Prop := ∀ g ∈ s, g = Glitch.ok

instance (s : List Glitch) : Decidable (allOk s) := by
  unfold allOk; infer_instance

/-- No upcoming call fails and no concurrent transaction commits. -/
def Calm (w : World) : Prop := allOk w.schedule

instance (w : World) : Decidable (Calm w) := by
  unfold Calm; infer_instance

/-! ## Sample data -/

namespace Sample

/-- An engine row. -/
def engineRow : EngineRow := ⟨1, 2000, 4, 600⟩

/-- A car row on `engineRow`; the price is `25000`. -/
def carRow : CarRow :=
  ⟨7, "Model X", "Acme", "2020", 1, ⟨0x40D86A0000000000⟩, "Petrol", 10, 10⟩

/-- A request for a car on `engineRow`. -/
def carRequest : CarRequest :=
  ⟨0, "Model X", "Acme", "2020", ⟨1, 2000, 4, 600⟩, ⟨0x40D86A0000000000⟩, "Petrol", 0, 0⟩

/-- A request for an engine. -/
def engineRequest : EngineRequest := ⟨1600, 4, 500⟩

/-- A world holding `engineRow` and the given cars, with the given schedule; the
    server reads uuid text as `uuid.Parse` does. -/
def world (cars : List CarRow) (schedule : List Glitch) : World :=
  { db := ⟨cars, [engineRow]⟩, tx := none, log := [], schedule := schedule, uuids := [7],
    clock := 10, uuidIn := uuid.Parse }

/-- The text of the id `7`. -/
def idText : String := "00000000-0000-0000-0000-000000000007"

end Sample

/-! ## Lemmas on calm runs -/

theorem call_of_allOk (w : World) (c : Call) (h : allOk w.schedule) :
    w.call c = (none, { w with log := w.log ++ [c], schedule := w.schedule.tail }) := by
  obtain ⟨db, tx, log, schedule, uuids, clock, uuidIn⟩ := w
  cases schedule with
  | nil => rfl
  | cons g rest =>
    have hg : g = Glitch.ok := h g (by simp)
    subst hg
    rfl

theorem allOk_tail (s : List Glitch) (h : allOk s) : allOk s.tail :=
  fun g hg => h g (List.mem_of_mem_tail hg)

theorem filter_eq_nil_of_ne {α : Type} (l : List α) (f : α → UUID) (u : UUID)
    (h : ∀ r ∈ l, f r ≠ u) : l.filter (fun r => f r = u) = [] := by
  rw [List.filter_eq_nil_iff]
  intro r hr
  simpa using h r hr

theorem isDigit_iff (ch : Char) : ('0' ≤ ch ∧ ch ≤ '9') ↔ ch.isDigit = true := by
  simp [Char.isDigit, Char.le_def]

theorem digitsLoop_eq (ds : List Char) (n : Nat) :
    strconv.digitsLoop ds n
      = if ds.all Char.isDigit then some (ds.foldl (fun n c => n * 10 + (c.toNat - 48)) n)
        else none := by
  induction ds generalizing n with
  | nil => simp [strconv.digitsLoop]
  | cons c cs ih =>
    by_cases hc : c.isDigit = true
    · have := (isDigit_iff c).2 hc
      simp [strconv.digitsLoop, this, hc, ih]
    · have : ¬ ('0' ≤ c ∧ c ≤ '9') := fun h => hc ((isDigit_iff c).1 h)
      simp [strconv.digitsLoop, this, hc]

theorem Atoi_eq (s : String) :
    strconv.Atoi s
      = if isBase10Literal s = true ∧ -9223372036854775808 ≤ literalValue s ∧
            literalValue s < 9223372036854775808
        then some (literalValue s) else none := by
  unfold strconv.Atoi isBase10Literal literalValue
  cases hs : s.toList with
  | nil => simp [signBody]
  | cons c cs =>
    by_cases hm : c = '-'
    · subst hm
      cases cs with
      | nil => simp [signBody]
      | cons d ds =>
        simp only [signBody, digitsLoop_eq, digitsValue]
        by_cases hd : (d :: ds).all Char.isDigit = true
        · simp [hd]
          generalize List.foldl _ _ _ = n
          by_cases h : n ≤ 9223372036854775808
          · have h2 : -(n : Int) < 9223372036854775808 := by omega
            simp [h, h2]
          · simp [h]
        · simp [hd]
    · by_cases hp : c = '+'
      · subst hp
        cases cs with
        | nil => simp [signBody]
        | cons d ds =>
          simp only [signBody, digitsLoop_eq, digitsValue]
          by_cases hd : (d :: ds).all Char.isDigit = true
          · simp [hd]
            generalize List.foldl _ _ _ = n
            by_cases h : n < 9223372036854775808
            · have h2 : -9223372036854775808 ≤ (n : Int) := by omega
              simp [h, h2]
            · simp [h]
          · simp [hd]
      · simp only [signBody, hm, hp, digitsLoop_eq, digitsValue]
        by_cases hd : (c :: cs).all Char.isDigit = true
        · simp [hd]
          generalize List.foldl _ _ _ = n
          by_cases h : n < 9223372036854775808
          · have h2 : -9223372036854775808 ≤ (n : Int) := by omega
            simp [h, h2]
          · simp [h]
        · simp [hd]

theorem validateYear_ne_none (Y : Int) (hY : Y < 2 ^ 63) (s : String) :
    validateYear Y s ≠ none ↔
      (s = "" ∨ isBase10Literal s = false ∨ literalValue s < 1886 ∨ literalValue s > Y) := by
  unfold validateYear
  by_cases h0 : s = ""
  · simp [h0]
  · rw [Atoi_eq]
    by_cases hl : isBase10Literal s = true
    · by_cases hr : -9223372036854775808 ≤ literalValue s ∧
          literalValue s < 9223372036854775808
      · simp only [h0, hl, hr, and_self, if_true, if_false, ne_eq, false_or,
          Bool.true_eq_false]
        by_cases hb : literalValue s < 1886 ∨ literalValue s > Y
        · simp [hb]
        · simp [hb]
      · simp only [h0, hl, hr, and_false, if_false, false_or, ne_eq, not_false_eq_true,
          reduceCtorEq, true_iff, Bool.true_eq_false]
        norm_num at hY
        by_contra hc
        apply hr
        constructor <;> omega
    · simp [h0, hl]

theorem validateFuelType_ne_none (f : String) :
    validateFuelType f ≠ none ↔
      ¬ (f = "Petrol" ∨ f = "Diesel" ∨ f = "Electric" ∨ f = "Hybrid") := by
  unfold validateFuelType fuelTypeLoop fuelTypeLoop fuelTypeLoop fuelTypeLoop fuelTypeLoop
  by_cases h1 : f = "Petrol" <;> by_cases h2 : f = "Diesel" <;> by_cases h3 : f = "Electric" <;>
    by_cases h4 : f = "Hybrid" <;> simp [h1, h2, h3, h4]

theorem validateEngine_ne_none (e : Engine) :
    validateEngine e ≠ none ↔
      (e.EngineID = uuid.Nil ∨ e.Displacement ≤ 0 ∨ e.NoOfCylinders ≤ 0 ∨ e.CarRange < 0) := by
  unfold validateEngine
  split_ifs <;> simp_all

theorem validateCarRequest_ne_none (Y : Int) (r : CarRequest) :
    validateCarRequest Y r ≠ none ↔
      (validateName r.Name ≠ none ∨ validateYear Y r.Year ≠ none ∨
        validateBrand r.Brand ≠ none ∨ validateFuelType r.FuelType ≠ none ∨
        validateEngine r.Engine ≠ none ∨ validatePrice r.Price ≠ none) := by
  unfold validateCarRequest
  cases validateName r.Name <;> cases validateYear Y r.Year <;> cases validateBrand r.Brand <;>
    cases validateFuelType r.FuelType <;> cases validateEngine r.Engine <;>
    cases validatePrice r.Price <;> simp

theorem or_reorder (A B C D E1 E2 E3 E4 P : Prop) :
    (A ∨ C ∨ B ∨ D ∨ (E1 ∨ E2 ∨ E3 ∨ E4) ∨ P) ↔ (A ∨ B ∨ C ∨ D ∨ E1 ∨ E2 ∨ E3 ∨ E4 ∨ P) := by
  tauto

/-! ## Theorems -/

/-! ### C1 -/

/-- C1, evaluated: the store holds engine 1 (2000, 4, 600) and one car of brand Acme
    on that engine. `GetCarByBrand "Acme" true` returns that car with its embedded
    engine all zero, the engine id included: after the scan of the joined row the
    loop assigns the empty `engine` to `c.Engine`. -/
theorem GetCarByBrand_join_returns_zero_engine :
    (GetCarByBrand (Sample.world [Sample.carRow] []) "Acme" true).1
      = (some [{ ID := 7, Name := "Model X", Brand := "Acme", Year := "2020",
                 Engine := ⟨0, 0, 0, 0⟩, Price := ⟨0x40D86A0000000000⟩, FuelType := "Petrol",
                 CreatedAt := 10, UpdatedAt := 10 }], none) ∧
    leftJoin (Sample.world [Sample.carRow] []).db.engine [Sample.carRow]
      = [⟨Sample.carRow, some ⟨1, 2000, 4, 600⟩⟩] := by
  decide

/-! ### C2 -/

/-- C2, evaluated: `CreateCar` succeeds on a request naming the existing engine 1
    (2000, 4, 600), returns the car 7 and stores its row. `GetCarByID` of the text
    of that id, on the store `CreateCar` left, makes its one query and returns the
    zero `Car` with the server's error: the bare `id` of its WHERE clause names a
    column of both joined tables. The car it returns is not the created one. -/
theorem CreateCar_GetCarByID_differ :
    (CreateCar (Sample.world [] []) Sample.carRequest).1
      = ({ ID := 7, Name := "Model X", Brand := "Acme", Year := "2020",
           Engine := ⟨1, 0, 0, 0⟩, Price := ⟨0x40D86A0000000000⟩, FuelType := "Petrol",
           CreatedAt := 10, UpdatedAt := 11 }, none) ∧
    (CreateCar (Sample.world [] []) Sample.carRequest).2.db.car
      = [⟨7, "Model X", "Acme", "2020", 1, ⟨0x40D86A0000000000⟩, "Petrol", 10, 11⟩] ∧
    uuid.Parse Sample.idText = some 7 ∧
    (GetCarByID (CreateCar (Sample.world [] []) Sample.carRequest).2 Sample.idText).1
      = (default, some (Error.driver "column reference id is ambiguous")) ∧
    (GetCarByID (CreateCar (Sample.world [] []) Sample.carRequest).2 Sample.idText).2.log
      = [Call.QueryRowContext Stmt.engineIDByID, Call.BeginTx,
          Call.QueryRowContext Stmt.insertCar, Call.Commit,
          Call.QueryRowContext Stmt.carJoinByID] ∧
    (GetCarByID (CreateCar (Sample.world [] []) Sample.carRequest).2 Sample.idText).1.1
      ≠ (CreateCar (Sample.world [] []) Sample.carRequest).1.1 := by
  decide

/-! ### C3 -/

/-- C3, refuted: `not-a-uuid` is no valid UUID, yet `DeleteCar` and `DeleteEngine`
    begin a transaction and issue their SELECT with it; the error they return is the
    one the server gave for that statement. -/
theorem Delete_invalid_id_reaches_database :
    uuid.Parse "not-a-uuid" = none ∧
    (DeleteCar (Sample.world [Sample.carRow] []) "not-a-uuid").1
      = (default, some (Error.driver "invalid input syntax for type uuid")) ∧
    (DeleteCar (Sample.world [Sample.carRow] []) "not-a-uuid").2.log
      = [Call.BeginTx, Call.QueryRowContext Stmt.carByID, Call.Rollback] ∧
    (DeleteEngine (Sample.world [Sample.carRow] []) "not-a-uuid").1
      = (default, some (Error.driver "invalid input syntax for type uuid")) ∧
    (DeleteEngine (Sample.world [Sample.carRow] []) "not-a-uuid").2.log
      = [Call.BeginTx, Call.QueryRowContext Stmt.engineByID, Call.Rollback] := by
  decide

/-- C3, amended: on a calm run, for an id that `uuid.Parse` rejects and the server
    rejects likewise, `DeleteCar` and `DeleteEngine` return the zero entity with the
    server's error for their SELECT; to get it they begin a transaction, issue the
    SELECT and roll back, and the committed tables are unchanged. -/
theorem Delete_invalid_id (w : World) (id : String) (hcalm : Calm w)
    (hinvalid : uuid.Parse id = none) (hin : w.uuidIn id = uuid.Parse id) :
    ((DeleteCar w id).1 = (default, some (Error.driver "invalid input syntax for type uuid")) ∧
      (DeleteCar w id).2.log
        = w.log ++ [Call.BeginTx, Call.QueryRowContext Stmt.carByID, Call.Rollback] ∧
      (DeleteCar w id).2.db = w.db) ∧
    ((DeleteEngine w id).1
        = (default, some (Error.driver "invalid input syntax for type uuid")) ∧
      (DeleteEngine w id).2.log
        = w.log ++ [Call.BeginTx, Call.QueryRowContext Stmt.engineByID, Call.Rollback] ∧
      (DeleteEngine w id).2.db = w.db) := by
  have h0 : allOk w.schedule := hcalm
  have h1 := allOk_tail _ h0
  have h2 := allOk_tail _ h1
  rw [hinvalid] at hin
  constructor
  · simp [DeleteCar, World.BeginTx, World.scanCarByID, World.finish, World.Rollback,
      call_of_allOk, h0, h1, h2, hin]
  · simp [DeleteEngine, World.BeginTx, World.scanEngineByID, World.finish, World.Rollback,
      call_of_allOk, h0, h1, h2, hin]

/-- C3, amended, at the id `not-a-uuid` and at an id of 38 characters and 39
    bytes, on the sample world. -/
theorem Delete_invalid_id_witness :
    uuid.Parse "not-a-uuid" = none ∧
    (DeleteCar (Sample.world [Sample.carRow] []) "not-a-uuid").2.db
      = (Sample.world [Sample.carRow] []).db ∧
    (DeleteEngine (Sample.world [Sample.carRow] []) "not-a-uuid").2.db
      = (Sample.world [Sample.carRow] []).db ∧
    uuid.Parse "é00000000-0000-0000-0000-000000000007\x7d" = none ∧
    (DeleteCar (Sample.world [Sample.carRow] [])
        "é00000000-0000-0000-0000-000000000007\x7d").1
      = (default, some (Error.driver "invalid input syntax for type uuid")) ∧
    (DeleteCar (Sample.world [Sample.carRow] [])
        "é00000000-0000-0000-0000-000000000007\x7d").2.db
      = (Sample.world [Sample.carRow] []).db :=
  ⟨by decide,
    (Delete_invalid_id (Sample.world [Sample.carRow] []) "not-a-uuid" (by decide)
      (by decide) (by decide)).1.2.2,
    (Delete_invalid_id (Sample.world [Sample.carRow] []) "not-a-uuid" (by decide)
      (by decide) (by decide)).2.2.2,
    by decide,
    (Delete_invalid_id (Sample.world [Sample.carRow] [])
      "é00000000-0000-0000-0000-000000000007\x7d" (by decide) (by decide) (by decide)).1.1,
    (Delete_invalid_id (Sample.world [Sample.carRow] [])
      "é00000000-0000-0000-0000-000000000007\x7d" (by decide) (by decide) (by decide)).1.2.2⟩

/-! ### C4 -/

/-- C4, refuted: no car of the store has brand `Zzz` and no call fails, and
    `GetCarByBrand` returns the nil slice, with either flag; it does not return a
    non-nil empty slice. -/
theorem GetCarByBrand_no_match_returns_nil :
    (∀ r ∈ (Sample.world [Sample.carRow] []).db.car, r.brand ≠ "Zzz") ∧
    (GetCarByBrand (Sample.world [Sample.carRow] []) "Zzz" false).1 = (none, none) ∧
    (GetCarByBrand (Sample.world [Sample.carRow] []) "Zzz" true).1 = (none, none) ∧
    (GetCarByBrand (Sample.world [Sample.carRow] []) "Zzz" false).1.1 ≠ some [] ∧
    (GetCarByBrand (Sample.world [Sample.carRow] []) "Zzz" true).1.1 ≠ some [] := by
  decide

/-- C4, amended: on a calm run, for a brand no car row has, `GetCarByBrand` returns,
    for either value of the flag, no error and the nil slice, which has no elements;
    the tables are unchanged. -/
theorem GetCarByBrand_no_match (w : World) (brand : String) (isEngine : Bool) (hcalm : Calm w)
    (h : ∀ r ∈ w.db.car, r.brand ≠ brand) :
    (GetCarByBrand w brand isEngine).1 = (none, none) ∧
    (GetCarByBrand w brand isEngine).2.db = w.db := by
  have h0 : allOk w.schedule := hcalm
  have h1 := allOk_tail _ h0
  have hf : w.db.car.filter (fun c => c.brand = brand) = [] := by
    rw [List.filter_eq_nil_iff]
    intro r hr
    simpa using h r hr
  cases isEngine <;>
    simp [GetCarByBrand, call_of_allOk, h0, h1, hf, leftJoin, brandLoop]

/-- C4, amended, at the brand `Zzz` on the sample world, with the join. -/
theorem GetCarByBrand_no_match_witness :
    (GetCarByBrand (Sample.world [Sample.carRow] []) "Zzz" true).1 = (none, none) ∧
    (GetCarByBrand (Sample.world [Sample.carRow] []) "Zzz" true).2.db
      = (Sample.world [Sample.carRow] []).db :=
  GetCarByBrand_no_match (Sample.world [Sample.carRow] []) "Zzz" true (by decide)
    (by decide)

/-! ### C5 -/

/-- C5, evaluated: the car (the engine) is there when the SELECT of the delete runs,
    and a concurrent transaction deletes it and commits before the DELETE runs. The
    DELETE affects no row, `DeleteCar` returns "car not found" (`DeleteEngine`
    returns "no engine deleted"), and the deferred function, finding the local `err`
    nil, commits the transaction: the log ends in `Commit` and holds no `Rollback`. -/
theorem Delete_zero_rows_commits :
    (DeleteCar (Sample.world [Sample.carRow] [.ok, .ok, .deleteCar 7]) Sample.idText).1.2
      = some (Error.New "car not found") ∧
    (DeleteCar (Sample.world [Sample.carRow] [.ok, .ok, .deleteCar 7]) Sample.idText).2.log
      = [Call.BeginTx, Call.QueryRowContext Stmt.carByID, Call.ExecContext Stmt.deleteCar,
          Call.RowsAffected, Call.Commit] ∧
    (DeleteEngine (Sample.world [] [.ok, .ok, .deleteEngine 1])
        "00000000-0000-0000-0000-000000000001").1.2
      = some (Error.New "no engine deleted") ∧
    (DeleteEngine (Sample.world [] [.ok, .ok, .deleteEngine 1])
        "00000000-0000-0000-0000-000000000001").2.log
      = [Call.BeginTx, Call.QueryRowContext Stmt.engineByID, Call.ExecContext Stmt.deleteEngine,
          Call.RowsAffected, Call.Commit] := by
  decide

/-! ### C6 -/

/-- C6, evaluated: `BeginTx` and the INSERT succeed and the `Commit` of the deferred
    function fails. `CreateEngine` and `CreateCar` return the new entity with a nil
    error, and the tables hold no such row. -/
theorem Create_commit_failure_returns_nil :
    (CreateEngine (Sample.world [] [.ok, .ok, .fail "commit failed"])
        Sample.engineRequest).1
      = (⟨7, 1600, 4, 500⟩, none) ∧
    (CreateEngine (Sample.world [] [.ok, .ok, .fail "commit failed"])
        Sample.engineRequest).2.log
      = [Call.BeginTx, Call.QueryRowContext Stmt.insertEngine, Call.Commit] ∧
    (CreateEngine (Sample.world [] [.ok, .ok, .fail "commit failed"])
        Sample.engineRequest).2.db.engine
      = [Sample.engineRow] ∧
    (CreateCar (Sample.world [] [.ok, .ok, .ok, .fail "commit failed"])
        Sample.carRequest).1.2
      = none ∧
    (CreateCar (Sample.world [] [.ok, .ok, .ok, .fail "commit failed"])
        Sample.carRequest).1.1.ID
      = 7 ∧
    (CreateCar (Sample.world [] [.ok, .ok, .ok, .fail "commit failed"])
        Sample.carRequest).2.log
      = [Call.QueryRowContext Stmt.engineIDByID, Call.BeginTx,
          Call.QueryRowContext Stmt.insertCar, Call.Commit] ∧
    (CreateCar (Sample.world [] [.ok, .ok, .ok, .fail "commit failed"])
        Sample.carRequest).2.db.car
      = [] ∧
    (({ Sample.world [] [.fail "commit failed"] with
          tx := some ⟨[], [Sample.engineRow, ⟨7, 1600, 4, 500⟩]⟩ } : World).Commit).1
      = some (Error.driver "commit failed") := by
  decide

/-! ### C7 -/

/-- C7: on a calm run, for a request whose engine id is the id of no engine row,
    `CreateCar` returns the zero `Car` with the error "engine not found"; the only
    call it makes is the existence query, so no transaction is begun, and the
    tables are unchanged. -/
theorem CreateCar_engine_not_found (w : World) (car : CarRequest) (hcalm : Calm w)
    (h : ∀ e ∈ w.db.engine, e.id ≠ car.Engine.EngineID) :
    (CreateCar w car).1 = (default, some (Error.New "engine not found")) ∧
    (CreateCar w car).2.log = w.log ++ [Call.QueryRowContext Stmt.engineIDByID] ∧
    (CreateCar w car).2.db = w.db ∧
    (CreateCar w car).2.tx = w.tx := by
  have hf := filter_eq_nil_of_ne w.db.engine (fun e => e.id) _ h
  simp [CreateCar, World.scanEngineID, call_of_allOk w _ hcalm, hf]

/-- C7, at a request naming engine 2 in a world whose only engine is 1. -/
theorem CreateCar_engine_not_found_witness :
    (CreateCar (Sample.world [] [])
        { Sample.carRequest with Engine := ⟨2, 2000, 4, 600⟩ }).1
      = (default, some (Error.New "engine not found")) ∧
    (CreateCar (Sample.world [] [])
        { Sample.carRequest with Engine := ⟨2, 2000, 4, 600⟩ }).2.log
      = [] ++ [Call.QueryRowContext Stmt.engineIDByID] ∧
    (CreateCar (Sample.world [] [])
        { Sample.carRequest with Engine := ⟨2, 2000, 4, 600⟩ }).2.db
      = (Sample.world [] []).db ∧
    (CreateCar (Sample.world [] [])
        { Sample.carRequest with Engine := ⟨2, 2000, 4, 600⟩ }).2.tx = none :=
  CreateCar_engine_not_found (Sample.world [] [])
    { Sample.carRequest with Engine := ⟨2, 2000, 4, 600⟩ } (by decide) (by decide)

/-! ### C8 -/

/-- C8: for an id that `uuid.Parse` rejects, `UpdateCar` returns the zero `Car` with
    the error "invalid Car ID format" and `UpdateEngine` the zero `Engine` with
    "invalid engine ID format", and the world they leave is the one they found: no
    call was made on the database, no transaction begun, no table changed. -/
theorem Update_invalid_id (w : World) (id : String) (car : CarRequest)
    (engine : EngineRequest) (h : uuid.Parse id = none) :
    UpdateCar w id car = ((default, some (Error.New "invalid Car ID format")), w) ∧
    UpdateEngine w id engine = ((default, some (Error.New "invalid engine ID format")), w) := by
  simp [UpdateCar, UpdateEngine, h]

/-- C8, at the id `not-a-uuid` and at an id of 38 characters and 39 bytes, on the
    sample world. -/
theorem Update_invalid_id_witness :
    uuid.Parse "not-a-uuid" = none ∧
    (UpdateCar (Sample.world [Sample.carRow] []) "not-a-uuid" Sample.carRequest
      = ((default, some (Error.New "invalid Car ID format")),
          Sample.world [Sample.carRow] []) ∧
    UpdateEngine (Sample.world [Sample.carRow] []) "not-a-uuid" Sample.engineRequest
      = ((default, some (Error.New "invalid engine ID format")),
          Sample.world [Sample.carRow] [])) ∧
    uuid.Parse "é00000000-0000-0000-0000-000000000007\x7d" = none ∧
    (UpdateCar (Sample.world [Sample.carRow] [])
        "é00000000-0000-0000-0000-000000000007\x7d" Sample.carRequest
      = ((default, some (Error.New "invalid Car ID format")),
          Sample.world [Sample.carRow] []) ∧
    UpdateEngine (Sample.world [Sample.carRow] [])
        "é00000000-0000-0000-0000-000000000007\x7d" Sample.engineRequest
      = ((default, some (Error.New "invalid engine ID format")),
          Sample.world [Sample.carRow] [])) :=
  ⟨by decide, Update_invalid_id _ _ _ _ (by decide), by decide,
    Update_invalid_id _ _ _ _ (by decide)⟩

/-! ### C9 -/

/-- C9: on a calm run, for an id that `uuid.Parse` accepts as `u` and the server
    reads likewise: if no car row has id `u`, `DeleteCar` returns the zero `Car`
    with "car not found", and if no engine row has id `u`, `DeleteEngine` returns
    the zero `Engine` with "engine not found". The calls made are `BeginTx`, the
    SELECT and `Rollback`, so no DELETE is executed, and the committed tables are
    unchanged. -/
theorem Delete_not_found (w : World) (id : String) (u : UUID) (hcalm : Calm w)
    (hvalid : uuid.Parse id = some u) (hin : w.uuidIn id = uuid.Parse id) :
    ((∀ r ∈ w.db.car, r.id ≠ u) →
      (DeleteCar w id).1 = (default, some (Error.New "car not found")) ∧
      (DeleteCar w id).2.log
        = w.log ++ [Call.BeginTx, Call.QueryRowContext Stmt.carByID, Call.Rollback] ∧
      (DeleteCar w id).2.db = w.db) ∧
    ((∀ r ∈ w.db.engine, r.id ≠ u) →
      (DeleteEngine w id).1 = (default, some (Error.New "engine not found")) ∧
      (DeleteEngine w id).2.log
        = w.log ++ [Call.BeginTx, Call.QueryRowContext Stmt.engineByID, Call.Rollback] ∧
      (DeleteEngine w id).2.db = w.db) := by
  have h0 : allOk w.schedule := hcalm
  have h1 := allOk_tail _ h0
  have h2 := allOk_tail _ h1
  rw [hvalid] at hin
  constructor
  · intro h
    have hf := filter_eq_nil_of_ne w.db.car (fun r => r.id) _ h
    simp [DeleteCar, World.BeginTx, World.scanCarByID, World.finish, World.Rollback,
      call_of_allOk, h0, h1, h2, hin, World.view, hf]
  · intro h
    have hf := filter_eq_nil_of_ne w.db.engine (fun r => r.id) _ h
    simp [DeleteEngine, World.BeginTx, World.scanEngineByID, World.finish, World.Rollback,
      call_of_allOk, h0, h1, h2, hin, World.view, hf]

/-- C9, at the id 9 on the sample world, which holds car 7 and engine 1. -/
theorem Delete_not_found_witness :
    uuid.Parse "00000000-0000-0000-0000-000000000009" = some 9 ∧
    (DeleteCar (Sample.world [Sample.carRow] [])
        "00000000-0000-0000-0000-000000000009").1
      = (default, some (Error.New "car not found")) ∧
    (DeleteEngine (Sample.world [Sample.carRow] [])
        "00000000-0000-0000-0000-000000000009").1
      = (default, some (Error.New "engine not found")) :=
  ⟨by decide,
    ((Delete_not_found (Sample.world [Sample.carRow] [])
      "00000000-0000-0000-0000-000000000009" 9 (by decide) (by decide) (by decide)).1
      (by decide)).1,
    ((Delete_not_found (Sample.world [Sample.carRow] [])
      "00000000-0000-0000-0000-000000000009" 9 (by decide) (by decide) (by decide)).2
      (by decide)).1⟩

/-! ### C10 -/

/-- C10: for a current year `Y` that fits the Go `int`, `validateCarRequest` returns
    an error exactly for the car requests the contract refuses, and
    `ValidateEngineRequest` returns an error exactly for the engine requests it
    refuses. -/
theorem validate_error_iff (Y : Int) (hY : Y < 2 ^ 63) (r : CarRequest) (e : EngineRequest) :
    (validateCarRequest Y r ≠ none ↔ CarRequestRefused Y r) ∧
    (ValidateEngineRequest e ≠ none ↔ EngineRequestRefused e) := by
  constructor
  · have hn : validateName r.Name ≠ none ↔ r.Name = "" := by
      unfold validateName; split_ifs <;> simp_all
    have hb : validateBrand r.Brand ≠ none ↔ r.Brand = "" := by
      unfold validateBrand; split_ifs <;> simp_all
    have hp : validatePrice r.Price ≠ none ↔ r.Price.ltZero = true := by
      unfold validatePrice; split_ifs <;> simp_all
    rw [validateCarRequest_ne_none, hn, hb, hp, validateYear_ne_none Y hY,
      validateFuelType_ne_none, validateEngine_ne_none]
    exact or_reorder _ _ _ _ _ _ _ _ _
  · unfold ValidateEngineRequest EngineRequestRefused validateDisplacement validateNoOfCylinders
      validateCarRange
    by_cases h1 : e.Displacement ≤ 0 <;> by_cases h2 : e.NoOfCylinders ≤ 0 <;>
      by_cases h3 : e.CarRange < 0 <;> simp [h1, h2, h3]

/-- C10, in the year 2026, at a car request with the year `1885` and an engine
    request with no cylinders: both are refused, and both get an error. -/
theorem validate_error_iff_witness :
    (2026 : Int) < 2 ^ 63 ∧
    ((validateCarRequest 2026 { Sample.carRequest with Year := "1885" } ≠ none ↔
        CarRequestRefused 2026 { Sample.carRequest with Year := "1885" }) ∧
      (ValidateEngineRequest ⟨1600, 0, 500⟩ ≠ none ↔ EngineRequestRefused ⟨1600, 0, 500⟩)) ∧
    validateCarRequest 2026 { Sample.carRequest with Year := "1885" }
      = some (Error.New "year must be between 1886 and the current year") ∧
    validateCarRequest 2026 Sample.carRequest = none :=
  ⟨by norm_num, validate_error_iff 2026 (by norm_num) _ _, by decide, by decide⟩

end CarZone
